import Mathlib

/-!
Verification of the battery state estimator in `battery_service.py`
(pulquero/BatteryProxy).

The estimator is embedded shallowly: Python floats become exact rationals
(`ℚ`), the mutable `_local_values` dictionary becomes the `BatteryState`
record, one call of `BatteryService.update` becomes the pure function
`update : Config → BatteryState → TickInput → BatteryState`, and
construction (`BatteryService.__init__`) becomes `mkBatteryService`.
Device readings pulled from the D-Bus monitor are supplied as an
already-resolved snapshot (`TickInput`), matching the loop over discovered
services at the top of `update`.
-/

namespace BatteryProxy

/-- Module-level constant `DEPTH_OF_DISCHARGE = 50` (percent). -/
def DEPTH_OF_DISCHARGE : ℚ := 50

/-- Module-level constant `STANDARD_TEMPERATURE = 25` (°C). -/
def STANDARD_TEMPERATURE : ℚ := 25

/-- Module-level constant `TEMPERATURE_COMPENSATION = -16/1000` (V/°C). -/
def TEMPERATURE_COMPENSATION : ℚ := -16/1000

/-- Module-level constant `VOLTAGE_DEADBAND = 1.0` (V). -/
def VOLTAGE_DEADBAND : ℚ := 1

/-- Module-level constant `MAX_DATA_HISTORY = 19`. -/
def MAX_DATA_HISTORY : ℕ := 19

/-- Module-level constant `FLOAT_STATE = 5` (charger `/State` value). -/
def FLOAT_STATE : ℤ := 5

/-- Module-level constant `FOREVER = 864000` (seconds). -/
def FOREVER : ℚ := 864000

/-- Module-level constant `ALARM_OK = 0`. -/
def ALARM_OK : ℕ := 0

/-- Module-level constant `ALARM_WARNING = 1` (never emitted by `update`). -/
def ALARM_WARNING : ℕ := 1

/-- Module-level constant `ALARM_ALARM = 2`. -/
def ALARM_ALARM : ℕ := 2

/-- `PowerSample = namedtuple('PowerSample', ['power', 'timestamp'])`. -/
structure PowerSample where
  power : ℚ
  timestamp : ℚ
deriving DecidableEq, Repr

/-- `DataSample = namedtuple('DataSample', ['current', 'voltage', 'timestamp', 'temperature'])`. -/
structure DataSample where
  current : ℚ
  voltage : ℚ
  timestamp : ℚ
  temperature : ℚ
deriving DecidableEq, Repr

/-- `_safe_min(newValue, currentValue)`: `min` if a current value exists, else the new value. -/
def safe_min (newValue : ℚ) (currentValue : Option ℚ) : ℚ :=
  match currentValue with
  | some c => min newValue c
  | none => newValue

/-- `_safe_max(newValue, currentValue)`: `max` if a current value exists, else the new value. -/
def safe_max (newValue : ℚ) (currentValue : Option ℚ) : ℚ :=
  match currentValue with
  | some c => max newValue c
  | none => newValue

/-- `toKWh(joules) = joules/3600/1000`. -/
def toKWh (joules : ℚ) : ℚ := joules/3600/1000

/-- `toAh(joules, voltage) = joules/voltage/3600`. -/
def toAh (joules voltage : ℚ) : ℚ := joules/voltage/3600

/-- `compensated_voltage(voltage, temperature)`. -/
def compensated_voltage (voltage temperature : ℚ) : ℚ :=
  voltage - (temperature - STANDARD_TEMPERATURE) * TEMPERATURE_COMPENSATION

/-- Python's `round` to an integer: round half to even (banker's rounding);
for a fractional part other than 1/2 this is rounding to the nearest integer. -/
def pyRound (q : ℚ) : ℤ :=
  if q - ⌊q⌋ = 1/2 then (if ⌊q⌋ % 2 = 0 then ⌊q⌋ else ⌊q⌋ + 1) else round q

/-- Python's `round(q, 3)` (three decimal places, half to even). -/
def round3 (q : ℚ) : ℚ := (pyRound (q * 1000) : ℚ) / 1000

/-- The service types the monitor watches (`com.victronenergy.*`). -/
inductive ServiceType
  | solarcharger
  | dcload
  | dcsource
deriving DecidableEq, Repr

/-- One discovered service's readings for a tick: `/Dc/0/Current`
(default 0), `/Dc/0/Voltage` (default 0), `/Dc/0/Power` (`none` when the
service does not publish it, in which case `voltage * current` is used),
and `/State` (`none` when absent; only read for solar chargers). -/
structure ServiceReading where
  type : ServiceType
  current : ℚ
  voltage : ℚ
  power : Option ℚ
  state : Option ℤ
deriving DecidableEq, Repr

/-- Accumulator of the service loop in `update`: best load/source voltage
seen so far, running current and power totals, and the last solar charger's
`/State` value. -/
structure AggResult where
  bestLoadVoltage : Option ℚ
  bestSourceVoltage : Option ℚ
  totalCurrent : ℚ
  totalPower : ℚ
  chargingState : Option ℤ
deriving DecidableEq, Repr

/-- One iteration of the service loop in `update` (lines 187–206):
load readings negate current and power and compete for the highest
above-deadband voltage; source readings compete for the lowest; solar
chargers overwrite `chargingState` with their `/State` value. -/
def aggStep (acc : AggResult) (s : ServiceReading) : AggResult :=
  let power := s.power.getD (s.voltage * s.current)
  match s.type with
  | ServiceType.dcload =>
      { acc with
        totalCurrent := acc.totalCurrent + -s.current
        totalPower := acc.totalPower + -power
        bestLoadVoltage :=
          if VOLTAGE_DEADBAND < s.voltage then some (safe_max s.voltage acc.bestLoadVoltage)
          else acc.bestLoadVoltage }
  | ServiceType.solarcharger =>
      { acc with
        totalCurrent := acc.totalCurrent + s.current
        totalPower := acc.totalPower + power
        bestSourceVoltage :=
          if VOLTAGE_DEADBAND < s.voltage then some (safe_min s.voltage acc.bestSourceVoltage)
          else acc.bestSourceVoltage
        chargingState := s.state }
  | ServiceType.dcsource =>
      { acc with
        totalCurrent := acc.totalCurrent + s.current
        totalPower := acc.totalPower + s.power.getD (s.voltage * s.current)
        bestSourceVoltage :=
          if VOLTAGE_DEADBAND < s.voltage then some (safe_min s.voltage acc.bestSourceVoltage)
          else acc.bestSourceVoltage }

/-- The whole service loop, over the discovered services in order. -/
def aggregate (services : List ServiceReading) : AggResult :=
  services.foldl aggStep ⟨none, none, 0, 0, none⟩

/-- Python truthiness of an optional float (`if batteryVoltage:` etc.). -/
def truthy : Option ℚ → Bool
  | none => false
  | some v => v != 0

/-- Voltage fusion (lines 217–223): mean of best load and best source
voltage when both exist, else whichever exists, else no reading. -/
def fusedVoltage (agg : AggResult) : Option ℚ :=
  if truthy agg.bestLoadVoltage && truthy agg.bestSourceVoltage then
    some ((agg.bestLoadVoltage.getD 0 + agg.bestSourceVoltage.getD 0)/2)
  else if truthy agg.bestLoadVoltage then agg.bestLoadVoltage
  else if truthy agg.bestSourceVoltage then agg.bestSourceVoltage
  else none

/-- Eviction after appending (lines 251–253): `dataHistoryLen` is taken
before eviction, and the front is dropped until at most `MAX_DATA_HISTORY`
samples remain. -/
def evictedWindow (h : List DataSample) : List DataSample :=
  if MAX_DATA_HISTORY < h.length then h.drop (h.length - MAX_DATA_HISTORY) else h

/-- `sorted(l, key=...)[idx]`: stable ascending sort by the key and
selection of the element at `idx` (a default sample for an out-of-range
index, which cannot occur in a reachable state). -/
def medianBy (key : DataSample → ℚ) (idx : ℕ) (l : List DataSample) : DataSample :=
  (List.insertionSort (fun a b => key a ≤ key b) l).getD idx ⟨0, 0, 0, 0⟩

/-- The post-tick sample window: append the new sample, then evict. -/
def tickWindow (history : List DataSample) (s : DataSample) : List DataSample :=
  evictedWindow (history ++ [s])

/-- The median current filter of `update` (line 256): note the index is
`dataHistoryLen // 2` where `dataHistoryLen` is the length BEFORE eviction. -/
def tickFilteredCurrent (history : List DataSample) (s : DataSample) : ℚ :=
  (medianBy (fun a => a.current) ((history ++ [s]).length / 2) (tickWindow history s)).current

/-- The median voltage filter of `update` (line 280), same pre-eviction index. -/
def tickFilteredVoltageSample (history : List DataSample) (s : DataSample) : DataSample :=
  medianBy (fun a => a.voltage) ((history ++ [s]).length / 2) (tickWindow history s)

/-- The configuration (`config.json`): required `capacity` plus the four
voltage thresholds (defaults 11.8 / 12.2 / 12.8 / 14.8 applied by `get`). -/
structure Config where
  capacity : ℚ
  emptyVoltage : ℚ
  minVoltage : ℚ
  fullVoltage : ℚ
  maxVoltage : ℚ
deriving DecidableEq, Repr

/-- `soc_from_voltage`: clamped linear interpolation between the empty and
full voltage references. -/
def soc_from_voltage (c : Config) (voltage : ℚ) : ℚ :=
  min (max (100 * (voltage - c.emptyVoltage)/(c.fullVoltage - c.emptyVoltage)) 0) 100

/-- The estimator's state: the published paths of `_local_values` that the
estimation logic reads or writes, plus `lastPower` and `dataHistory`. -/
structure BatteryState where
  voltage : ℚ
  current : ℚ
  power : ℚ
  soc : Option ℚ
  timeToGo : ℚ
  minimumVoltage : Option ℚ
  maximumVoltage : Option ℚ
  chargedEnergy : ℚ
  dischargedEnergy : ℚ
  totalAhDrawn : ℚ
  deepestDischarge : Option ℚ
  fullDischarges : ℕ
  lowVoltageAlarm : ℕ
  highVoltageAlarm : ℕ
  lowSocAlarm : ℕ
  capacity : ℚ
  maxChargeVoltage : ℚ
  lastPower : Option PowerSample
  dataHistory : List DataSample
deriving DecidableEq, Repr

/-- The initial state set up by `BatteryService.__init__` (lines 119–141,
169–170): zeros and `None`s, `/TimeToGo = FOREVER`, alarms OK, and
`/Capacity` initialised to the configured capacity. -/
def initState (c : Config) : BatteryState where
  voltage := 0
  current := 0
  power := 0
  soc := none
  timeToGo := FOREVER
  minimumVoltage := none
  maximumVoltage := none
  chargedEnergy := 0
  dischargedEnergy := 0
  totalAhDrawn := 0
  deepestDischarge := none
  fullDischarges := 0
  lowVoltageAlarm := ALARM_OK
  highVoltageAlarm := ALARM_OK
  lowSocAlarm := ALARM_OK
  capacity := c.capacity
  maxChargeVoltage := c.fullVoltage
  lastPower := none
  dataHistory := []

/-- The threshold validation of `__init__` (lines 109–114) followed by
state initialisation: each `raise ValueError` becomes an `Except.error`. -/
def mkBatteryService (c : Config) : Except String BatteryState :=
  if c.fullVoltage > c.maxVoltage then
    Except.error "maxVoltage must be greater than fullVoltage"
  else if c.minVoltage > c.fullVoltage then
    Except.error "fullVoltage must be greater than minVoltage"
  else if c.emptyVoltage > c.minVoltage then
    Except.error "minVoltage must be greater than emptyVoltage"
  else Except.ok (initState c)

/-- Result of the trapezium integration block (lines 230–243): the three
energy counters and the remaining amp-hours. -/
structure IntegResult where
  chargedEnergy : ℚ
  dischargedEnergy : ℚ
  totalAhDrawn : ℚ
  remainingAh : ℚ
deriving DecidableEq, Repr

/-- The trapezium integration block (lines 230–243): no previous anchor
means no integration; otherwise the signed energy updates the charge or
discharge counters and the clamped remaining amp-hours. -/
def integrationStep (cap v totalPower now : ℚ) (lastPower : Option PowerSample)
    (charged discharged drawn remaining : ℚ) : IntegResult :=
  match lastPower with
  | none => ⟨charged, discharged, drawn, remaining⟩
  | some lp =>
      let energy := (lp.power + totalPower)/2 * (now - lp.timestamp)
      if 0 < energy then
        ⟨charged + toKWh energy, discharged, drawn, min (remaining + toAh energy v) cap⟩
      else if energy < 0 then
        ⟨charged, discharged + toKWh (-energy), drawn + toAh (-energy) v,
          max (remaining - toAh (-energy) v) 0⟩
      else ⟨charged, discharged, drawn, remaining⟩

/-- The body of `update` guarded by `if batteryVoltage:` (lines 225–290),
for a tick whose voltage fusion produced `v`.  `st` already carries the
updated `/Info/MaxChargeVoltage` and `/Dc/0/Current`. -/
def updateBody (c : Config) (st : BatteryState) (agg : AggResult)
    (temperature now v : ℚ) : BatteryState :=
  let sample : DataSample := ⟨agg.totalCurrent, v, now, temperature⟩
  let window := tickWindow st.dataHistory sample
  let integ := integrationStep c.capacity v agg.totalPower now st.lastPower
    st.chargedEnergy st.dischargedEnergy st.totalAhDrawn st.capacity
  let remainingAh :=
    if agg.chargingState = some FLOAT_STATE then c.capacity else integ.remainingAh
  let filteredCurrent := tickFilteredCurrent st.dataHistory sample
  let fvs := tickFilteredVoltageSample st.dataHistory sample
  let filteredCompensatedVoltage := compensated_voltage fvs.voltage fvs.temperature
  let soc := soc_from_voltage c (compensated_voltage v temperature)
  { voltage := round3 v
    current := st.current
    power := agg.totalPower
    soc := some soc
    timeToGo :=
      if filteredCurrent < 0 then
        max ((pyRound ((remainingAh - DEPTH_OF_DISCHARGE/100 * c.capacity)
          / (-filteredCurrent) * 3600) : ℚ)) 0
      else FOREVER
    minimumVoltage := some (safe_min v st.minimumVoltage)
    maximumVoltage := some (safe_max v st.maximumVoltage)
    chargedEnergy := integ.chargedEnergy
    dischargedEnergy := integ.dischargedEnergy
    totalAhDrawn := integ.totalAhDrawn
    deepestDischarge := some (match st.deepestDischarge with
      | none => soc
      | some d => if soc < d then soc else d)
    fullDischarges := if v ≤ c.emptyVoltage then st.fullDischarges + 1 else st.fullDischarges
    lowVoltageAlarm :=
      if filteredCompensatedVoltage ≤ c.minVoltage then ALARM_ALARM else ALARM_OK
    highVoltageAlarm :=
      if filteredCompensatedVoltage ≥ c.maxVoltage then ALARM_ALARM else ALARM_OK
    lowSocAlarm := if soc < 10 then ALARM_ALARM else ALARM_OK
    capacity := remainingAh
    maxChargeVoltage := st.maxChargeVoltage
    lastPower := some ⟨agg.totalPower, now⟩
    dataHistory := window }

/-- The external readings one tick consumes: the discovered services in
iteration order, the optional battery temperature sensor reading (25 °C
when absent), and the tick's `time.perf_counter()` value. -/
structure TickInput where
  services : List ServiceReading
  temperature : Option ℚ
  now : ℚ
deriving DecidableEq, Repr

/-- One call of `BatteryService.update` (lines 175–291):
aggregate the services, resolve the temperature, publish the compensated
max-charge voltage and total current, then run the voltage-guarded body
when fusion produced a (truthy) reading. -/
def update (c : Config) (st : BatteryState) (inp : TickInput) : BatteryState :=
  let agg := aggregate inp.services
  let temperature := inp.temperature.getD STANDARD_TEMPERATURE
  let st1 := { st with
    maxChargeVoltage := compensated_voltage c.fullVoltage temperature
    current := agg.totalCurrent }
  match fusedVoltage agg with
  | none => st1
  | some v => if v = 0 then st1 else updateBody c st1 agg temperature inp.now v

/-! ### Helper lemmas -/

lemma truthy_iff (o : Option ℚ) : truthy o = true ↔ ∃ x, o = some x ∧ x ≠ 0 := by
  cases o with
  | none => simp [truthy]
  | some x => simp [truthy]

lemma aggStep_chargingState (acc : AggResult) (s : ServiceReading) :
    (aggStep acc s).chargingState =
      if s.type = ServiceType.solarcharger then s.state else acc.chargingState := by
  obtain ⟨t, cur, vol, pow, st⟩ := s
  cases t <;> simp [aggStep]

lemma aggStep_best_of_le (acc : AggResult) (s : ServiceReading)
    (h : s.voltage ≤ VOLTAGE_DEADBAND) :
    (aggStep acc s).bestLoadVoltage = acc.bestLoadVoltage ∧
    (aggStep acc s).bestSourceVoltage = acc.bestSourceVoltage := by
  obtain ⟨t, cur, vol, pow, st⟩ := s
  cases t <;> simp_all [aggStep, not_lt.mpr h]

lemma safe_max_gt (v : ℚ) (o : Option ℚ) (hv : VOLTAGE_DEADBAND < v) :
    VOLTAGE_DEADBAND < safe_max v o := by
  cases o with
  | none => simpa [safe_max] using hv
  | some m => simpa [safe_max, lt_max_iff] using Or.inl hv

lemma safe_min_gt (v : ℚ) (o : Option ℚ) (hv : VOLTAGE_DEADBAND < v)
    (ho : ∀ x, o = some x → VOLTAGE_DEADBAND < x) :
    VOLTAGE_DEADBAND < safe_min v o := by
  cases o with
  | none => simpa [safe_min] using hv
  | some m => simpa [safe_min, lt_min_iff] using ⟨hv, ho m rfl⟩

/-- The best voltages tracked by the service loop are always above the
deadband when present. -/
lemma foldl_best_gt (ss : List ServiceReading) (acc : AggResult)
    (hl : ∀ x, acc.bestLoadVoltage = some x → VOLTAGE_DEADBAND < x)
    (hs : ∀ x, acc.bestSourceVoltage = some x → VOLTAGE_DEADBAND < x) :
    (∀ x, (ss.foldl aggStep acc).bestLoadVoltage = some x → VOLTAGE_DEADBAND < x) ∧
    (∀ x, (ss.foldl aggStep acc).bestSourceVoltage = some x → VOLTAGE_DEADBAND < x) := by
  induction ss generalizing acc with
  | nil => exact ⟨hl, hs⟩
  | cons s ss ih =>
      refine ih (aggStep acc s) ?_ ?_
      · intro x hx
        obtain ⟨t, cur, vol, pow, st⟩ := s
        cases t <;> simp only [aggStep] at hx
        case dcload =>
          by_cases hd : VOLTAGE_DEADBAND < vol
          · rw [if_pos hd] at hx
            cases hx
            exact safe_max_gt _ _ hd
          · rw [if_neg hd] at hx
            exact hl x hx
        all_goals exact hl x hx
      · intro x hx
        obtain ⟨t, cur, vol, pow, st⟩ := s
        cases t <;> simp only [aggStep] at hx
        case dcload => exact hs x hx
        all_goals
          by_cases hd : VOLTAGE_DEADBAND < vol
          · rw [if_pos hd] at hx
            cases hx
            exact safe_min_gt _ _ hd hs
          · rw [if_neg hd] at hx
            exact hs x hx

lemma aggregate_best_gt (ss : List ServiceReading) :
    (∀ x, (aggregate ss).bestLoadVoltage = some x → VOLTAGE_DEADBAND < x) ∧
    (∀ x, (aggregate ss).bestSourceVoltage = some x → VOLTAGE_DEADBAND < x) :=
  foldl_best_gt ss ⟨none, none, 0, 0, none⟩ (by intro x h; cases h) (by intro x h; cases h)

/-- A fused voltage reading is always above the deadband. -/
lemma fusedVoltage_gt (ss : List ServiceReading) (v : ℚ)
    (hv : fusedVoltage (aggregate ss) = some v) : VOLTAGE_DEADBAND < v := by
  obtain ⟨hl, hs⟩ := aggregate_best_gt ss
  unfold fusedVoltage at hv
  split_ifs at hv with h1 h2 h3
  · obtain ⟨hbl, hbs⟩ := Bool.and_eq_true_iff.mp h1
    obtain ⟨a, ha, _⟩ := (truthy_iff _).mp hbl
    obtain ⟨b, hb, _⟩ := (truthy_iff _).mp hbs
    cases hv
    rw [ha, hb]
    simp only [Option.getD_some]
    have hA := hl a ha
    have hB := hs b hb
    unfold VOLTAGE_DEADBAND at hA hB ⊢
    linarith
  · exact hl v hv
  · exact hs v hv

lemma fusedVoltage_pos (ss : List ServiceReading) (v : ℚ)
    (hv : fusedVoltage (aggregate ss) = some v) : 0 < v :=
  lt_trans (by norm_num [VOLTAGE_DEADBAND]) (fusedVoltage_gt ss v hv)

lemma fusedVoltage_ne_zero (ss : List ServiceReading) (v : ℚ)
    (hv : fusedVoltage (aggregate ss) = some v) : v ≠ 0 :=
  ne_of_gt (fusedVoltage_pos ss v hv)

/-- Unfolding `update` on a tick whose voltage fusion succeeded. -/
lemma update_fused (c : Config) (st : BatteryState) (inp : TickInput) (v : ℚ)
    (hv : fusedVoltage (aggregate inp.services) = some v) :
    update c st inp =
      updateBody c
        { st with
          maxChargeVoltage :=
            compensated_voltage c.fullVoltage (inp.temperature.getD STANDARD_TEMPERATURE)
          current := (aggregate inp.services).totalCurrent }
        (aggregate inp.services) (inp.temperature.getD STANDARD_TEMPERATURE) inp.now v := by
  have h0 : v ≠ 0 := fusedVoltage_ne_zero inp.services v hv
  simp only [update]
  rw [hv]
  simp [h0]

/-- Unfolding `update` on a tick whose voltage fusion yielded no reading. -/
lemma update_not_fused (c : Config) (st : BatteryState) (inp : TickInput)
    (hv : fusedVoltage (aggregate inp.services) = none) :
    update c st inp =
      { st with
        maxChargeVoltage :=
          compensated_voltage c.fullVoltage (inp.temperature.getD STANDARD_TEMPERATURE)
        current := (aggregate inp.services).totalCurrent } := by
  simp only [update]
  rw [hv]

/-- `chargingState` after the service loop is the `/State` of the LAST
solar charger in iteration order (earlier solar chargers are overwritten). -/
lemma foldl_chargingState (ss : List ServiceReading) (acc : AggResult) :
    (ss.foldl aggStep acc).chargingState =
      (((ss.filter (fun s => s.type == ServiceType.solarcharger)).getLast?).map
        (fun s => s.state)).getD acc.chargingState := by
  induction ss generalizing acc with
  | nil => rfl
  | cons s ss ih =>
      rw [List.foldl_cons, ih]
      by_cases h : s.type = ServiceType.solarcharger
      · rw [List.filter_cons_of_pos (by simp [h])]
        cases hfl : ss.filter (fun s => s.type == ServiceType.solarcharger) with
        | nil => simp [aggStep_chargingState, h]
        | cons t ts =>
            have hne : t :: ts ≠ [] := by simp
            obtain ⟨x, hx⟩ := Option.isSome_iff_exists.mp (List.getLast?_isSome.mpr hne)
            rw [List.getLast?_cons_cons, hx]
            simp
      · rw [List.filter_cons_of_neg (by simp [h])]
        simp [aggStep_chargingState, h]

lemma aggregate_chargingState (ss : List ServiceReading) :
    (aggregate ss).chargingState =
      (((ss.filter (fun s => s.type == ServiceType.solarcharger)).getLast?).map
        (fun s => s.state)).getD none :=
  foldl_chargingState ss ⟨none, none, 0, 0, none⟩

lemma toKWh_nonneg (j : ℚ) (hj : 0 ≤ j) : 0 ≤ toKWh j := by
  unfold toKWh
  positivity

lemma toAh_nonneg (j v : ℚ) (hj : 0 ≤ j) (hv : 0 ≤ v) : 0 ≤ toAh j v := by
  unfold toAh
  positivity

/-- The remaining amp-hours stay within `[0, cap]` across an integration step. -/
lemma integrationStep_remainingAh_bounds (cap v totalPower now : ℚ)
    (lastPower : Option PowerSample) (charged discharged drawn remaining : ℚ)
    (hv : 0 < v) (h0 : 0 ≤ remaining) (h1 : remaining ≤ cap) :
    0 ≤ (integrationStep cap v totalPower now lastPower
          charged discharged drawn remaining).remainingAh ∧
    (integrationStep cap v totalPower now lastPower
          charged discharged drawn remaining).remainingAh ≤ cap := by
  have hcap : 0 ≤ cap := le_trans h0 h1
  cases lastPower with
  | none => exact ⟨h0, h1⟩
  | some lp =>
      simp only [integrationStep]
      split_ifs with hE1 hE2
      · constructor
        · exact le_min (add_nonneg h0 (toAh_nonneg _ _ hE1.le hv.le)) hcap
        · exact min_le_right _ _
      · constructor
        · exact le_max_right _ _
        · exact max_le (le_trans (sub_le_self _ (toAh_nonneg _ _ (by linarith) hv.le)) h1) hcap
      · exact ⟨h0, h1⟩

/-- The three history counters never decrease across an integration step. -/
lemma integrationStep_counters_mono (cap v totalPower now : ℚ)
    (lastPower : Option PowerSample) (charged discharged drawn : ℚ) (remaining : ℚ)
    (hv : 0 < v) :
    charged ≤ (integrationStep cap v totalPower now lastPower
                charged discharged drawn remaining).chargedEnergy ∧
    discharged ≤ (integrationStep cap v totalPower now lastPower
                charged discharged drawn remaining).dischargedEnergy ∧
    drawn ≤ (integrationStep cap v totalPower now lastPower
                charged discharged drawn remaining).totalAhDrawn := by
  cases lastPower with
  | none => exact ⟨le_refl _, le_refl _, le_refl _⟩
  | some lp =>
      simp only [integrationStep]
      split_ifs with hE1 hE2
      · exact ⟨le_add_of_nonneg_right (toKWh_nonneg _ hE1.le), le_refl _, le_refl _⟩
      · exact ⟨le_refl _,
          le_add_of_nonneg_right (toKWh_nonneg _ (by linarith)),
          le_add_of_nonneg_right (toAh_nonneg _ _ (by linarith) hv.le)⟩
      · exact ⟨le_refl _, le_refl _, le_refl _⟩

/-! ### Concrete fixtures used by witnesses and counterexamples -/

/-- The scenario configuration of the spec: capacity 100 Ah,
thresholds 11.8 / 12.2 / 12.8 / 14.8 V. -/
def cfg : Config := ⟨100, 11.8, 12.2, 12.8, 14.8⟩

/-! ### Claims -/

/-- **C1**: on every tick with a successful voltage fusion, the trapezoidal
rule `energy = (prevPower + currentPower)/2 × (now − prevTimestamp)` drives
the counters: positive energy accumulates `chargedEnergyKWh` and adds
`energy/voltage/3600` to `remainingCapacityAh` clamped at the configured
capacity; negative energy accumulates the magnitude into
`dischargedEnergyKWh` and `totalAhDrawn` and subtracts it from
`remainingCapacityAh` clamped at zero; zero energy changes no counters;
the anchor is replaced with `(currentPower, now)` regardless of branch;
a first tick (no prior anchor) performs no integration. (Stated away from
the float-state override, which is claim C3's subject.) -/
theorem claim_C1_trapezoidal_integration (c : Config) (st : BatteryState) (inp : TickInput)
    (v : ℚ)
    (hv : fusedVoltage (aggregate inp.services) = some v)
    (hfloat : (aggregate inp.services).chargingState ≠ some FLOAT_STATE) :
    (update c st inp).lastPower = some ⟨(aggregate inp.services).totalPower, inp.now⟩ ∧
    (st.lastPower = none →
      (update c st inp).chargedEnergy = st.chargedEnergy ∧
      (update c st inp).dischargedEnergy = st.dischargedEnergy ∧
      (update c st inp).totalAhDrawn = st.totalAhDrawn ∧
      (update c st inp).capacity = st.capacity) ∧
    (∀ lp : PowerSample, st.lastPower = some lp →
      (0 < (lp.power + (aggregate inp.services).totalPower) / 2 * (inp.now - lp.timestamp) →
        (update c st inp).chargedEnergy = st.chargedEnergy +
          toKWh ((lp.power + (aggregate inp.services).totalPower) / 2 * (inp.now - lp.timestamp)) ∧
        (update c st inp).capacity = min (st.capacity +
          toAh ((lp.power + (aggregate inp.services).totalPower) / 2 * (inp.now - lp.timestamp)) v)
          c.capacity ∧
        (update c st inp).dischargedEnergy = st.dischargedEnergy ∧
        (update c st inp).totalAhDrawn = st.totalAhDrawn) ∧
      ((lp.power + (aggregate inp.services).totalPower) / 2 * (inp.now - lp.timestamp) < 0 →
        (update c st inp).dischargedEnergy = st.dischargedEnergy +
          toKWh (-((lp.power + (aggregate inp.services).totalPower) / 2 * (inp.now - lp.timestamp))) ∧
        (update c st inp).totalAhDrawn = st.totalAhDrawn +
          toAh (-((lp.power + (aggregate inp.services).totalPower) / 2 * (inp.now - lp.timestamp))) v ∧
        (update c st inp).capacity = max (st.capacity -
          toAh (-((lp.power + (aggregate inp.services).totalPower) / 2 * (inp.now - lp.timestamp))) v)
          0 ∧
        (update c st inp).chargedEnergy = st.chargedEnergy) ∧
      ((lp.power + (aggregate inp.services).totalPower) / 2 * (inp.now - lp.timestamp) = 0 →
        (update c st inp).chargedEnergy = st.chargedEnergy ∧
        (update c st inp).dischargedEnergy = st.dischargedEnergy ∧
        (update c st inp).totalAhDrawn = st.totalAhDrawn ∧
        (update c st inp).capacity = st.capacity)) := by
  rw [update_fused c st inp v hv]
  refine ⟨?_, ?_, ?_⟩
  · simp [updateBody]
  · intro hlp
    simp [updateBody, integrationStep, hlp, hfloat]
  · intro lp hlp
    refine ⟨?_, ?_, ?_⟩
    · intro hE
      simp [updateBody, integrationStep, hlp, hfloat, hE]
    · intro hE
      have hE' : ¬ (0 < (lp.power + (aggregate inp.services).totalPower) / 2 *
          (inp.now - lp.timestamp)) := not_lt.mpr hE.le
      simp [updateBody, integrationStep, hlp, hfloat, hE, hE']
    · intro hE
      simp [updateBody, integrationStep, hlp, hfloat, hE]

/-- Witness for C1: one solar charger at 13 V with 10 W, previous anchor
(10 W, t=0), tick at t=2: energy = 20 J, charged energy grows by
20/3600/1000 kWh and the anchor is replaced. -/
theorem claim_C1_witness :
    (update cfg { initState cfg with lastPower := some ⟨10, 0⟩ }
      ⟨[⟨ServiceType.solarcharger, 1, 13, some 10, none⟩], none, 2⟩).chargedEnergy
      = 1/180000 ∧
    (update cfg { initState cfg with lastPower := some ⟨10, 0⟩ }
      ⟨[⟨ServiceType.solarcharger, 1, 13, some 10, none⟩], none, 2⟩).lastPower
      = some ⟨10, 2⟩ := by
  have h := claim_C1_trapezoidal_integration cfg
    { initState cfg with lastPower := some ⟨10, 0⟩ }
    ⟨[⟨ServiceType.solarcharger, 1, 13, some 10, none⟩], none, 2⟩ 13
    (by norm_num [aggregate, aggStep, fusedVoltage, truthy, safe_min, VOLTAGE_DEADBAND])
    (by simp [aggregate, aggStep])
  refine ⟨?_, ?_⟩
  · have h4 := h.2.2 ⟨10, 0⟩ rfl
    have h5 := h4.1 (by norm_num [aggregate, aggStep])
    refine h5.1.trans ?_
    norm_num [aggregate, aggStep, initState, cfg, toKWh]
  · refine h.1.trans ?_
    norm_num [aggregate, aggStep]

/-- **C2**: each tick preserves the state invariants: `remainingCapacityAh`
stays in `[0, capacityAh]`, `minVoltageEver` never increases,
`maxVoltageEver` never decreases, `totalAhDrawn`, `dischargedEnergyKWh`
and `chargedEnergyKWh` never decrease, and `deepestDischargeSoc` never
increases. -/
theorem claim_C2_tick_invariants (c : Config) (st : BatteryState) (inp : TickInput)
    (h0 : 0 ≤ st.capacity) (h1 : st.capacity ≤ c.capacity) :
    (0 ≤ (update c st inp).capacity ∧ (update c st inp).capacity ≤ c.capacity) ∧
    (∀ m, st.minimumVoltage = some m →
      ∃ m', (update c st inp).minimumVoltage = some m' ∧ m' ≤ m) ∧
    (∀ M, st.maximumVoltage = some M →
      ∃ M', (update c st inp).maximumVoltage = some M' ∧ M ≤ M') ∧
    st.totalAhDrawn ≤ (update c st inp).totalAhDrawn ∧
    st.dischargedEnergy ≤ (update c st inp).dischargedEnergy ∧
    st.chargedEnergy ≤ (update c st inp).chargedEnergy ∧
    (∀ d, st.deepestDischarge = some d →
      ∃ d', (update c st inp).deepestDischarge = some d' ∧ d' ≤ d) := by
  cases hfv : fusedVoltage (aggregate inp.services) with
  | none =>
      rw [update_not_fused c st inp hfv]
      exact ⟨⟨h0, h1⟩, fun m hm => ⟨m, hm, le_refl m⟩, fun M hM => ⟨M, hM, le_refl M⟩,
        le_refl _, le_refl _, le_refl _, fun d hd => ⟨d, hd, le_refl d⟩⟩
  | some v =>
      have hvpos : 0 < v := fusedVoltage_pos inp.services v hfv
      rw [update_fused c st inp v hfv]
      refine ⟨?_, ?_, ?_, ?_, ?_, ?_, ?_⟩
      · simp only [updateBody]
        by_cases hfl : (aggregate inp.services).chargingState = some FLOAT_STATE
        · simp only [if_pos hfl]
          exact ⟨le_trans h0 h1, le_refl _⟩
        · simp only [if_neg hfl]
          exact integrationStep_remainingAh_bounds _ _ _ _ _ _ _ _ _ hvpos h0 h1
      · intro m hm
        exact ⟨min v m, by simp [updateBody, safe_min, hm], min_le_right _ _⟩
      · intro M hM
        exact ⟨max v M, by simp [updateBody, safe_max, hM], le_max_right _ _⟩
      · simp only [updateBody]
        exact (integrationStep_counters_mono _ _ _ _ _ _ _ _ _ hvpos).2.2
      · simp only [updateBody]
        exact (integrationStep_counters_mono _ _ _ _ _ _ _ _ _ hvpos).2.1
      · simp only [updateBody]
        exact (integrationStep_counters_mono _ _ _ _ _ _ _ _ _ hvpos).1
      · intro d hd
        simp only [updateBody, hd]
        refine ⟨_, rfl, ?_⟩
        split_ifs with h
        · exact h.le
        · exact le_refl d

/-- Witness for C2 at a concrete tick (the spec's discharge scenario:
one 12 V / 5 A load). -/
theorem claim_C2_witness :
    (0 : ℚ) ≤ (initState cfg).capacity ∧ (initState cfg).capacity ≤ cfg.capacity ∧
    0 ≤ (update cfg (initState cfg)
      ⟨[⟨ServiceType.dcload, 5, 12, none, none⟩], none, 0⟩).capacity ∧
    (update cfg (initState cfg)
      ⟨[⟨ServiceType.dcload, 5, 12, none, none⟩], none, 0⟩).capacity ≤ cfg.capacity := by
  have h := claim_C2_tick_invariants cfg (initState cfg)
    ⟨[⟨ServiceType.dcload, 5, 12, none, none⟩], none, 0⟩
    (by norm_num [initState, cfg]) (by norm_num [initState, cfg])
  exact ⟨by norm_num [initState, cfg], by norm_num [initState, cfg], h.1.1, h.1.2⟩

/-- **C10**: construction initialises `/Capacity` (the coulomb counter's
remaining capacity) to the full configured capacity, and leaves no
integration anchor, so the first tick integrates nothing and starts from
`capacityAh`. -/
theorem claim_C10_initial_capacity (c : Config) (st : BatteryState)
    (h : mkBatteryService c = Except.ok st) :
    st.capacity = c.capacity ∧ st.lastPower = none ∧ st = initState c := by
  unfold mkBatteryService at h
  split_ifs at h
  cases h
  exact ⟨rfl, rfl, rfl⟩

/-- Witness for C10 at the spec's scenario configuration. -/
theorem claim_C10_witness :
    mkBatteryService cfg = Except.ok (initState cfg) ∧
    (initState cfg).capacity = 100 ∧ (initState cfg).lastPower = none := by
  have h := claim_C10_initial_capacity cfg (initState cfg)
    (by norm_num [mkBatteryService, cfg])
  exact ⟨by norm_num [mkBatteryService, cfg], h.1.trans (by norm_num [cfg]), h.2.1⟩

/-- A degenerate configuration with all four thresholds equal: the strict
ordering `empty < min < full < max` is violated, yet construction succeeds
(the source checks `>` between neighbours, not `≥`). -/
def cfgEq : Config := ⟨100, 12, 12, 12, 12⟩

/-- Counterexample to C8: with `emptyVoltage = minVoltage = fullVoltage =
maxVoltage = 12` the strict ordering is violated but construction
succeeds, so "fails with a validation error if the strict ordering is
violated" is false. -/
theorem claim_C8_counterexample :
    mkBatteryService cfgEq = Except.ok (initState cfgEq) ∧
    ¬(cfgEq.emptyVoltage < cfgEq.minVoltage ∧ cfgEq.minVoltage < cfgEq.fullVoltage ∧
      cfgEq.fullVoltage < cfgEq.maxVoltage) := by
  constructor
  · norm_num [mkBatteryService, cfgEq]
  · norm_num [cfgEq]

/-- **C8 (amended)**: construction succeeds (producing the initial battery
state) iff the NON-strict ordering `emptyVoltage ≤ minVoltage ≤
fullVoltage ≤ maxVoltage` holds, and fails with a validation error
otherwise; any state produced is the initial state. -/
theorem claim_C8_construction_validation (c : Config) :
    (mkBatteryService c = Except.ok (initState c) ↔
      c.emptyVoltage ≤ c.minVoltage ∧ c.minVoltage ≤ c.fullVoltage ∧
        c.fullVoltage ≤ c.maxVoltage) ∧
    (∀ st, mkBatteryService c = Except.ok st → st = initState c) := by
  unfold mkBatteryService
  split_ifs with h1 h2 h3
  · exact ⟨⟨fun h => h.elim, fun h => absurd h.2.2 (not_le.mpr h1)⟩, fun st h => h.elim⟩
  · exact ⟨⟨fun h => h.elim, fun h => absurd h.2.1 (not_le.mpr h2)⟩, fun st h => h.elim⟩
  · exact ⟨⟨fun h => h.elim, fun h => absurd h.1 (not_le.mpr h3)⟩, fun st h => h.elim⟩
  · push_neg at h1 h2 h3
    exact ⟨⟨fun _ => ⟨h3, h2, h1⟩, fun _ => rfl⟩, fun st h => (Except.ok.inj h).symm⟩

/-- A tick on which the FIRST of two solar chargers reports the float
state but the LAST does not. -/
def twoChargerInput : TickInput :=
  ⟨[⟨ServiceType.solarcharger, 0, 13, none, some FLOAT_STATE⟩,
    ⟨ServiceType.solarcharger, 0, 13, none, some 3⟩], none, 0⟩

/-- Counterexample to C3: a charging source reports the float state, yet
the override does not fire (the loop keeps only the LAST solar charger's
`/State`), so `remainingCapacityAh` stays at 50 instead of being forced to
the configured capacity 100. -/
theorem claim_C3_counterexample :
    (∃ s ∈ twoChargerInput.services,
      s.type = ServiceType.solarcharger ∧ s.state = some FLOAT_STATE) ∧
    fusedVoltage (aggregate twoChargerInput.services) = some 13 ∧
    (update cfg { initState cfg with capacity := 50 } twoChargerInput).capacity = 50 ∧
    (50 : ℚ) ≠ cfg.capacity := by
  refine ⟨⟨⟨ServiceType.solarcharger, 0, 13, none, some FLOAT_STATE⟩,
      by simp [twoChargerInput], rfl, rfl⟩, ?_, ?_, by norm_num [cfg]⟩
  · norm_num [aggregate, aggStep, fusedVoltage, truthy, safe_min, VOLTAGE_DEADBAND,
      twoChargerInput]
  · norm_num [update, updateBody, aggregate, aggStep, fusedVoltage, truthy, safe_min,
      VOLTAGE_DEADBAND, integrationStep, initState, cfg, FLOAT_STATE, twoChargerInput]

/-- **C3 (amended)**: the float state is detected iff the LAST
solar-charger reading in service iteration order reports the float
operating state (earlier readings are overwritten), and when it is
detected, the tick ends with `remainingCapacityAh` forced to the full
configured capacity regardless of the integrated energy. -/
theorem claim_C3_float_override (c : Config) (st : BatteryState) (inp : TickInput) (v : ℚ)
    (hv : fusedVoltage (aggregate inp.services) = some v) :
    ((aggregate inp.services).chargingState = some FLOAT_STATE ↔
      (∃ s, (inp.services.filter (fun r => r.type == ServiceType.solarcharger)).getLast?
          = some s ∧ s.state = some FLOAT_STATE)) ∧
    ((aggregate inp.services).chargingState = some FLOAT_STATE →
      (update c st inp).capacity = c.capacity) := by
  constructor
  · rw [aggregate_chargingState]
    cases hLast : (inp.services.filter (fun r => r.type == ServiceType.solarcharger)).getLast?
      with
    | none => simp
    | some s => simp
  · intro hfl
    rw [update_fused c st inp v hv]
    simp [updateBody, hfl]

/-- A tick with a single solar charger reporting the float state. -/
def floatInput : TickInput := ⟨[⟨ServiceType.solarcharger, 0, 13, none, some FLOAT_STATE⟩], none, 0⟩

/-- Witness for C3 (amended): one solar charger in float forces the
remaining capacity from 50 up to the configured 100. -/
theorem claim_C3_witness :
    (update cfg { initState cfg with capacity := 50 } floatInput).capacity = 100 := by
  have h := claim_C3_float_override cfg { initState cfg with capacity := 50 } floatInput 13
    (by norm_num [aggregate, aggStep, fusedVoltage, truthy, safe_min, VOLTAGE_DEADBAND,
      floatInput])
  refine (h.2 (by simp [aggregate, aggStep, floatInput])).trans (by norm_num [cfg])

/-- A tick on which the only service's voltage is below the 1.0 V deadband
(voltage fusion yields no reading) but its current and power are nonzero. -/
def deadbandInput : TickInput := ⟨[⟨ServiceType.solarcharger, 2, 1/2, some 42, none⟩], none, 0⟩

/-- Counterexample to C7: on a no-voltage tick the claim says current AND
power are still updated, but the code assigns `/Dc/0/Power` only inside
the voltage-guarded block: power keeps its previous value 7 even though
the aggregated total power is 42; only current is updated. -/
theorem claim_C7_counterexample :
    (update cfg { initState cfg with power := 7 } deadbandInput).power = 7 ∧
    (aggregate deadbandInput.services).totalPower = 42 ∧
    (7 : ℚ) ≠ 42 ∧
    (update cfg { initState cfg with power := 7 } deadbandInput).current = 2 := by
  refine ⟨?_, ?_, by norm_num, ?_⟩ <;>
    norm_num [update, updateBody, aggregate, aggStep, fusedVoltage, truthy, safe_min,
      VOLTAGE_DEADBAND, initState, cfg, deadbandInput]

/-- **C7 (amended)**: on a tick where no source or load voltage exceeds the
deadband, the fused voltage yields no reading; the total current (and the
compensated max-charge voltage) are still updated, while power and every
voltage-dependent field — soc, alarms, capacity, history counters and
extrema, time-to-go, the sample window and the integration anchor — hold
their previous values (the whole state is unchanged except `current` and
`maxChargeVoltage`). -/
theorem claim_C7_degenerate_tick (c : Config) (st : BatteryState) (inp : TickInput)
    (h : ∀ s ∈ inp.services, s.voltage ≤ VOLTAGE_DEADBAND) :
    update c st inp =
      { st with
        maxChargeVoltage :=
          compensated_voltage c.fullVoltage (inp.temperature.getD STANDARD_TEMPERATURE)
        current := (aggregate inp.services).totalCurrent } := by
  have hbest : (aggregate inp.services).bestLoadVoltage = none ∧
      (aggregate inp.services).bestSourceVoltage = none := by
    unfold aggregate
    have : ∀ acc : AggResult, acc.bestLoadVoltage = none → acc.bestSourceVoltage = none →
        ∀ ss : List ServiceReading, (∀ s ∈ ss, s.voltage ≤ VOLTAGE_DEADBAND) →
        (ss.foldl aggStep acc).bestLoadVoltage = none ∧
        (ss.foldl aggStep acc).bestSourceVoltage = none := by
      intro acc hL hS ss
      induction ss generalizing acc with
      | nil => intro _; exact ⟨hL, hS⟩
      | cons s ss ih =>
          intro hmem
          have hstep := aggStep_best_of_le acc s (hmem s (by simp))
          exact ih (aggStep acc s) (hstep.1.trans hL) (hstep.2.trans hS)
            (fun t ht => hmem t (by simp [ht]))
    exact this _ rfl rfl inp.services h
  have hfv : fusedVoltage (aggregate inp.services) = none := by
    unfold fusedVoltage
    rw [hbest.1, hbest.2]
    simp [truthy]
  rw [update_not_fused c st inp hfv]

/-- Witness for C7 (amended) at the concrete deadband tick. -/
theorem claim_C7_witness :
    (update cfg { initState cfg with power := 7 } deadbandInput) =
      { initState cfg with power := 7, current := 2, maxChargeVoltage := 12.8 } := by
  have h := claim_C7_degenerate_tick cfg { initState cfg with power := 7 } deadbandInput
    (by intro s hs; simp [deadbandInput] at hs; subst hs; norm_num [VOLTAGE_DEADBAND])
  rw [h]
  norm_num [aggregate, aggStep, compensated_voltage, STANDARD_TEMPERATURE, cfg, initState,
    deadbandInput]

/-- A state whose sample window already holds two 12 V samples. -/
def twelveVoltState : BatteryState :=
  { initState cfg with dataHistory := [⟨0, 12, 0, 25⟩, ⟨0, 12, 1, 25⟩] }

/-- A tick with one solar charger at 13 V (instantaneous fused voltage 13,
while the median-by-voltage of the window is 12). -/
def thirteenVoltInput : TickInput := ⟨[⟨ServiceType.solarcharger, 0, 13, none, none⟩], none, 2⟩

/-- Counterexample to C5: the median-by-voltage (filtered) sample of the
tick's window is the 12 V one, for which the claimed formula gives
SOC = 20, but the code computes SOC from the UNFILTERED instantaneous
fused voltage 13 V, giving 100. -/
theorem claim_C5_counterexample :
    (update cfg twelveVoltState thirteenVoltInput).soc = some 100 ∧
    tickFilteredVoltageSample twelveVoltState.dataHistory ⟨0, 13, 2, 25⟩ = ⟨0, 12, 1, 25⟩ ∧
    soc_from_voltage cfg (compensated_voltage 12 25) = 20 ∧
    (100 : ℚ) ≠ 20 := by
  refine ⟨?_, ?_, ?_, by norm_num⟩
  · norm_num [update, updateBody, aggregate, aggStep, fusedVoltage, truthy, safe_min,
      VOLTAGE_DEADBAND, soc_from_voltage, compensated_voltage, STANDARD_TEMPERATURE,
      TEMPERATURE_COMPENSATION, twelveVoltState, thirteenVoltInput, initState, cfg]
  · norm_num [tickFilteredVoltageSample, medianBy, tickWindow, evictedWindow,
      MAX_DATA_HISTORY, List.insertionSort, List.orderedInsert, twelveVoltState, initState]
  · norm_num [soc_from_voltage, compensated_voltage, STANDARD_TEMPERATURE,
      TEMPERATURE_COMPENSATION, cfg]

/-- **C5 (amended)**: on every tick with a successful voltage fusion,
`socPercent = clamp(100 × (compensatedVoltage − emptyVoltage) /
(fullVoltage − emptyVoltage), 0, 100)` where `compensatedVoltage` is the
INSTANTANEOUS fused voltage (not the median-filtered one), compensated
with the tick's temperature; and `socPercent` is independent of
`remainingCapacityAh`. -/
theorem claim_C5_soc_from_voltage (c : Config) (st : BatteryState) (inp : TickInput) (v : ℚ)
    (hv : fusedVoltage (aggregate inp.services) = some v) :
    (update c st inp).soc = some (min (max
      (100 * (compensated_voltage v (inp.temperature.getD STANDARD_TEMPERATURE)
        - c.emptyVoltage) / (c.fullVoltage - c.emptyVoltage)) 0) 100) ∧
    (∀ q, (update c { st with capacity := q } inp).soc = (update c st inp).soc) := by
  constructor
  · rw [update_fused c st inp v hv]
    simp [updateBody, soc_from_voltage]
  · intro q
    rw [update_fused c st inp v hv, update_fused c { st with capacity := q } inp v hv]
    simp [updateBody]

/-- The spec's charging scenario: one solar charger at 13.0 V / 10 A. -/
def scenarioInput : TickInput := ⟨[⟨ServiceType.solarcharger, 10, 13, none, none⟩], none, 0⟩

/-- Witness for C5 (amended): the spec scenario gives SOC = 100 (clamped
from 120), and changing the remaining capacity does not change it. -/
theorem claim_C5_witness :
    (update cfg (initState cfg) scenarioInput).soc = some 100 ∧
    (update cfg { initState cfg with capacity := 1 } scenarioInput).soc =
      (update cfg (initState cfg) scenarioInput).soc := by
  have h := claim_C5_soc_from_voltage cfg (initState cfg) scenarioInput 13
    (by norm_num [aggregate, aggStep, fusedVoltage, truthy, safe_min, VOLTAGE_DEADBAND,
      scenarioInput])
  refine ⟨h.1.trans ?_, h.2 1⟩
  norm_num [compensated_voltage, STANDARD_TEMPERATURE, TEMPERATURE_COMPENSATION, cfg,
    scenarioInput]

lemma alarm_ite_iff (p : Prop) [Decidable p] :
    ((if p then ALARM_ALARM else ALARM_OK) = ALARM_ALARM ↔ p) ∧
    ((if p then ALARM_ALARM else ALARM_OK) = ALARM_OK ↔ ¬p) := by
  split_ifs with h <;> simp [ALARM_ALARM, ALARM_OK, h]

/-- **C6**: on every tick with a successful voltage fusion, the low-voltage
alarm is raised iff the filtered temperature-compensated voltage is ≤ the
configured low-voltage threshold, the high-voltage alarm iff it is ≥ the
high-voltage threshold, and the low-SOC alarm iff `socPercent < 10`;
otherwise each alarm is Ok, recomputed fresh on each tick with no
hysteresis. -/
theorem claim_C6_alarms (c : Config) (st : BatteryState) (inp : TickInput) (v : ℚ)
    (hv : fusedVoltage (aggregate inp.services) = some v) :
    ((update c st inp).lowVoltageAlarm = ALARM_ALARM ↔
      compensated_voltage
        (tickFilteredVoltageSample st.dataHistory
          ⟨(aggregate inp.services).totalCurrent, v, inp.now,
            inp.temperature.getD STANDARD_TEMPERATURE⟩).voltage
        (tickFilteredVoltageSample st.dataHistory
          ⟨(aggregate inp.services).totalCurrent, v, inp.now,
            inp.temperature.getD STANDARD_TEMPERATURE⟩).temperature ≤ c.minVoltage) ∧
    ((update c st inp).lowVoltageAlarm = ALARM_OK ↔
      ¬(compensated_voltage
        (tickFilteredVoltageSample st.dataHistory
          ⟨(aggregate inp.services).totalCurrent, v, inp.now,
            inp.temperature.getD STANDARD_TEMPERATURE⟩).voltage
        (tickFilteredVoltageSample st.dataHistory
          ⟨(aggregate inp.services).totalCurrent, v, inp.now,
            inp.temperature.getD STANDARD_TEMPERATURE⟩).temperature ≤ c.minVoltage)) ∧
    ((update c st inp).highVoltageAlarm = ALARM_ALARM ↔
      compensated_voltage
        (tickFilteredVoltageSample st.dataHistory
          ⟨(aggregate inp.services).totalCurrent, v, inp.now,
            inp.temperature.getD STANDARD_TEMPERATURE⟩).voltage
        (tickFilteredVoltageSample st.dataHistory
          ⟨(aggregate inp.services).totalCurrent, v, inp.now,
            inp.temperature.getD STANDARD_TEMPERATURE⟩).temperature ≥ c.maxVoltage) ∧
    ((update c st inp).highVoltageAlarm = ALARM_OK ↔
      ¬(compensated_voltage
        (tickFilteredVoltageSample st.dataHistory
          ⟨(aggregate inp.services).totalCurrent, v, inp.now,
            inp.temperature.getD STANDARD_TEMPERATURE⟩).voltage
        (tickFilteredVoltageSample st.dataHistory
          ⟨(aggregate inp.services).totalCurrent, v, inp.now,
            inp.temperature.getD STANDARD_TEMPERATURE⟩).temperature ≥ c.maxVoltage)) ∧
    ((update c st inp).lowSocAlarm = ALARM_ALARM ↔
      soc_from_voltage c
        (compensated_voltage v (inp.temperature.getD STANDARD_TEMPERATURE)) < 10) ∧
    ((update c st inp).lowSocAlarm = ALARM_OK ↔
      ¬(soc_from_voltage c
        (compensated_voltage v (inp.temperature.getD STANDARD_TEMPERATURE)) < 10)) := by
  rw [update_fused c st inp v hv]
  simp only [updateBody]
  exact ⟨(alarm_ite_iff _).1, (alarm_ite_iff _).2, (alarm_ite_iff _).1, (alarm_ite_iff _).2,
    (alarm_ite_iff _).1, (alarm_ite_iff _).2⟩

/-- A tick with one solar charger at exactly the 12.2 V low-voltage
threshold. -/
def boundaryInput : TickInput := ⟨[⟨ServiceType.solarcharger, 0, 12.2, none, none⟩], none, 0⟩

/-- A tick with one solar charger just above the threshold, at 12.2001 V. -/
def aboveBoundaryInput : TickInput :=
  ⟨[⟨ServiceType.solarcharger, 0, 12.2001, none, none⟩], none, 0⟩

/-- Witness for C6: at the spec's boundary, a filtered compensated voltage
of exactly 12.2 V raises the low-voltage alarm and 12.2001 V does not. -/
theorem claim_C6_witness :
    (update cfg (initState cfg) boundaryInput).lowVoltageAlarm = ALARM_ALARM ∧
    (update cfg (initState cfg) aboveBoundaryInput).lowVoltageAlarm = ALARM_OK := by
  have h1 := claim_C6_alarms cfg (initState cfg) boundaryInput (12.2 : ℚ)
    (by norm_num [aggregate, aggStep, fusedVoltage, truthy, safe_min, VOLTAGE_DEADBAND,
      boundaryInput])
  have h2 := claim_C6_alarms cfg (initState cfg) aboveBoundaryInput (12.2001 : ℚ)
    (by norm_num [aggregate, aggStep, fusedVoltage, truthy, safe_min, VOLTAGE_DEADBAND,
      aboveBoundaryInput])
  constructor
  · refine h1.1.mpr ?_
    norm_num [tickFilteredVoltageSample, medianBy, tickWindow, evictedWindow,
      MAX_DATA_HISTORY, List.insertionSort, List.orderedInsert, compensated_voltage,
      STANDARD_TEMPERATURE, TEMPERATURE_COMPENSATION, aggregate, aggStep, initState, cfg,
      boundaryInput]
  · refine h2.2.1.mpr ?_
    norm_num [tickFilteredVoltageSample, medianBy, tickWindow, evictedWindow,
      MAX_DATA_HISTORY, List.insertionSort, List.orderedInsert, compensated_voltage,
      STANDARD_TEMPERATURE, TEMPERATURE_COMPENSATION, aggregate, aggStep, initState, cfg,
      aboveBoundaryInput]

/-- A tick with a single 12 V / 7 A load (net discharge). -/
def loadInput : TickInput := ⟨[⟨ServiceType.dcload, 7, 12, none, none⟩], none, 0⟩

/-- Counterexample to C9: discharging at a filtered 7 A with 100 Ah
remaining, the code reports `/TimeToGo` = 25714 s (the quotient is rounded
to an integer by `round(..., 0)` before the outer `max`), while the
claim's exact formula `max(0, (100 − 50)/7 × 3600)` gives 180000/7 =
25714.285714… — the claim omits the rounding. -/
theorem claim_C9_counterexample :
    (update cfg (initState cfg) loadInput).timeToGo = 25714 ∧
    max 0 ((cfg.capacity - 50/100 * cfg.capacity) / 7 * 3600) = 180000/7 ∧
    (25714 : ℚ) ≠ 180000/7 := by
  refine ⟨?_, by norm_num [cfg], by norm_num⟩
  norm_num [update, updateBody, aggregate, aggStep, fusedVoltage, truthy, safe_max,
    VOLTAGE_DEADBAND, integrationStep, tickFilteredCurrent, medianBy, tickWindow,
    evictedWindow, MAX_DATA_HISTORY, List.insertionSort, List.orderedInsert, pyRound,
    round_eq, DEPTH_OF_DISCHARGE, initState, cfg, FLOAT_STATE, loadInput]

/-- **C9 (amended)**: on every tick with a successful voltage fusion, if the
filtered current indicates net discharge then `timeToEmptySeconds =
max(round((remainingAh − 0.50 × configuredCapacity) / dischargeCurrent ×
3600), 0)` — the quotient is rounded to a whole number of seconds
(Python's banker's rounding) before the clamp; otherwise (charging or
idle) `timeToEmptySeconds` is the sentinel 864000. -/
theorem claim_C9_time_to_empty (c : Config) (st : BatteryState) (inp : TickInput) (v : ℚ)
    (hv : fusedVoltage (aggregate inp.services) = some v) :
    (tickFilteredCurrent st.dataHistory
        ⟨(aggregate inp.services).totalCurrent, v, inp.now,
          inp.temperature.getD STANDARD_TEMPERATURE⟩ < 0 →
      (update c st inp).timeToGo =
        max ((pyRound (((update c st inp).capacity - DEPTH_OF_DISCHARGE/100 * c.capacity) /
          (-(tickFilteredCurrent st.dataHistory
            ⟨(aggregate inp.services).totalCurrent, v, inp.now,
              inp.temperature.getD STANDARD_TEMPERATURE⟩)) * 3600) : ℚ)) 0) ∧
    (0 ≤ tickFilteredCurrent st.dataHistory
        ⟨(aggregate inp.services).totalCurrent, v, inp.now,
          inp.temperature.getD STANDARD_TEMPERATURE⟩ →
      (update c st inp).timeToGo = FOREVER) := by
  rw [update_fused c st inp v hv]
  simp only [updateBody]
  constructor
  · intro h
    rw [if_pos h]
  · intro h
    rw [if_neg (not_lt.mpr h)]

/-- Witness for C9 (amended): the spec's charging scenario (13 V / 10 A
solar charger) reports the "forever" sentinel. -/
theorem claim_C9_witness :
    (update cfg (initState cfg) scenarioInput).timeToGo = FOREVER := by
  have h := claim_C9_time_to_empty cfg (initState cfg) scenarioInput 13
    (by norm_num [aggregate, aggStep, fusedVoltage, truthy, safe_min, VOLTAGE_DEADBAND,
      scenarioInput])
  refine h.2 ?_
  norm_num [tickFilteredCurrent, medianBy, tickWindow, evictedWindow, MAX_DATA_HISTORY,
    List.insertionSort, List.orderedInsert, aggregate, aggStep, initState, cfg,
    scenarioInput]

instance : IsTotal DataSample (fun a b => a.current ≤ b.current) :=
  ⟨fun a b => le_total a.current b.current⟩

instance : IsTrans DataSample (fun a b => a.current ≤ b.current) :=
  ⟨fun _ _ _ h1 h2 => le_trans h1 h2⟩

instance : IsTotal DataSample (fun a b => a.voltage ≤ b.voltage) :=
  ⟨fun a b => le_total a.voltage b.voltage⟩

instance : IsTrans DataSample (fun a b => a.voltage ≤ b.voltage) :=
  ⟨fun _ _ _ h1 h2 => le_trans h1 h2⟩

/-- A full sample window: 19 samples whose currents are −20 … −2 A in
arrival order. -/
def fullHistory : List DataSample :=
  [⟨-20, 12, 0, 25⟩, ⟨-19, 12, 1, 25⟩, ⟨-18, 12, 2, 25⟩, ⟨-17, 12, 3, 25⟩, ⟨-16, 12, 4, 25⟩,
   ⟨-15, 12, 5, 25⟩, ⟨-14, 12, 6, 25⟩, ⟨-13, 12, 7, 25⟩, ⟨-12, 12, 8, 25⟩, ⟨-11, 12, 9, 25⟩,
   ⟨-10, 12, 10, 25⟩, ⟨-9, 12, 11, 25⟩, ⟨-8, 12, 12, 25⟩, ⟨-7, 12, 13, 25⟩, ⟨-6, 12, 14, 25⟩,
   ⟨-5, 12, 15, 25⟩, ⟨-4, 12, 16, 25⟩, ⟨-3, 12, 17, 25⟩, ⟨-2, 12, 18, 25⟩]

/-- Counterexample to C4: appending a −1 A sample to a full 19-sample
window evicts the oldest sample, leaving the 19 currents −19 … −1; the
sample at index ⌊19/2⌋ = 9 of the window sorted by current has current −10,
but the code indexes with the PRE-eviction length (20//2 = 10) and returns
−9. -/
theorem claim_C4_counterexample :
    tickFilteredCurrent fullHistory ⟨-1, 12, 19, 25⟩ = -9 ∧
    ((List.insertionSort (fun a b => a.current ≤ b.current)
        (tickWindow fullHistory ⟨-1, 12, 19, 25⟩)).getD
      ((tickWindow fullHistory ⟨-1, 12, 19, 25⟩).length / 2) ⟨0, 0, 0, 0⟩).current = -10 ∧
    (-9 : ℚ) ≠ -10 := by
  refine ⟨?_, ?_, by norm_num⟩ <;>
    norm_num [tickFilteredCurrent, medianBy, tickWindow, evictedWindow, MAX_DATA_HISTORY,
      fullHistory, List.insertionSort, List.orderedInsert]

/-- **C4 (amended)**: the noise filter sorts the post-tick window by
current (resp. voltage) — a genuine sort: the selected list is ordered and
a permutation of the window — and selects index `⌊L/2⌋` where `L` is the
window length BEFORE eviction (after appending the new sample).  When the
window had not yet reached capacity, no eviction occurs and this is the
claimed `⌊length/2⌋` of the final window; in particular inserting currents
[5,1,3] into an empty window filters to 3.  (When the window was full, the
index is ⌊(length+1)/2⌋ = 10 on a 19-sample window, not ⌊length/2⌋ = 9 —
see the counterexample.) -/
theorem claim_C4_median_filter (history : List DataSample) (s : DataSample)
    (h : history.length < MAX_DATA_HISTORY) :
    tickWindow history s = history ++ [s] ∧
    List.Sorted (fun a b => a.current ≤ b.current)
      (List.insertionSort (fun a b => a.current ≤ b.current) (history ++ [s])) ∧
    List.Perm (List.insertionSort (fun a b => a.current ≤ b.current) (history ++ [s]))
      (history ++ [s]) ∧
    tickFilteredCurrent history s =
      ((List.insertionSort (fun a b => a.current ≤ b.current) (history ++ [s])).getD
        ((history ++ [s]).length / 2) ⟨0, 0, 0, 0⟩).current ∧
    List.Sorted (fun a b => a.voltage ≤ b.voltage)
      (List.insertionSort (fun a b => a.voltage ≤ b.voltage) (history ++ [s])) ∧
    List.Perm (List.insertionSort (fun a b => a.voltage ≤ b.voltage) (history ++ [s]))
      (history ++ [s]) ∧
    tickFilteredVoltageSample history s =
      (List.insertionSort (fun a b => a.voltage ≤ b.voltage) (history ++ [s])).getD
        ((history ++ [s]).length / 2) ⟨0, 0, 0, 0⟩ := by
  have hw : tickWindow history s = history ++ [s] := by
    unfold tickWindow evictedWindow
    rw [if_neg]
    rw [List.length_append, List.length_singleton]
    unfold MAX_DATA_HISTORY at h ⊢
    omega
  refine ⟨hw, List.sorted_insertionSort _ _, List.perm_insertionSort _ _, ?_,
    List.sorted_insertionSort _ _, List.perm_insertionSort _ _, ?_⟩
  · unfold tickFilteredCurrent medianBy
    rw [hw]
  · unfold tickFilteredVoltageSample medianBy
    rw [hw]

/-- Witness for C4 (amended): currents [5,1,3] inserted in that order into
an empty window filter to 3, the middle of sorted [1,3,5]. -/
theorem claim_C4_witness :
    tickFilteredCurrent [⟨5, 12, 0, 25⟩, ⟨1, 12, 1, 25⟩] ⟨3, 12, 2, 25⟩ = 3 := by
  have h := claim_C4_median_filter [⟨5, 12, 0, 25⟩, ⟨1, 12, 1, 25⟩] ⟨3, 12, 2, 25⟩
    (by norm_num [MAX_DATA_HISTORY])
  refine h.2.2.2.1.trans ?_
  norm_num [List.insertionSort, List.orderedInsert]

end BatteryProxy
